import Mathlib

/-!
Shallow embedding of the intake-call core of the `empathetic-health-voiceagent`
repository: the slot engine (`src/lib/orchestrator/slot-engine.ts`), the safety
red-flag detector (`SafetyDetector`), and the call orchestrator
(`src/lib/orchestrator/index.ts`).  TypeScript objects become structures, the
JS `Map`s of the orchestrator become association lists, in-place mutation
becomes explicit state passing, `throw` becomes an error value, and the clock
(`new Date().toISOString()`) becomes an explicit `now : String` argument.
JS numbers appearing in comparisons (confidences) are modelled as rationals.
-/

namespace VoiceAgent

/-- A slot answer as built by the slot engine.  `value` is `any` in the
TypeScript; every use in the modelled code treats it opaquely, so it is
modelled as a `String`.  `status` is kept as a string, exactly as in the
TypeScript (where it is compared against the literals
`filled` / `unknown` / `not_applicable`). -/
structure SlotAnswer where
  value : String
  confidence : ℚ
  status : String
  evidence_turn_ids : List String
deriving Repr, DecidableEq

/-- The optional patient summary of an `IntakeSnapshot`. -/
structure PatientInfo where
  full_name : Option String := none
  dob : Option String := none
  callback_number : Option String := none
deriving Repr, DecidableEq

/-- The `IntakeSnapshot` record.  `answers` (a JS object keyed by slot name)
is modelled as an association list from slot keys to answers. -/
structure IntakeSnapshot where
  call_id : String
  patient : Option PatientInfo := none
  answers : List (String × SlotAnswer)
  red_flags : List String
  completed : Bool
  timestamp : String
deriving Repr, DecidableEq

/-- One catalog entry (`IntakeQuestion`). -/
structure IntakeQuestion where
  id : String
  verbatim : String
  slot : String
  category : String
  required : Bool
deriving Repr, DecidableEq

/-- A transcript turn as delivered by the ASR boundary. -/
structure TranscriptTurn where
  turn_id : String
  call_id : String
  speaker : String
  text : String
  ts_start : ℚ := 0
  ts_end : ℚ := 0
  confidence : ℚ := 1
  is_final : Bool
deriving Repr, DecidableEq

/-- `SlotEngineState`: per-call state held in the orchestrator's session map. -/
structure SlotEngineState where
  call_id : String
  questions : List IntakeQuestion
  current_question_index : Nat
  snapshot : IntakeSnapshot
  turns : List TranscriptTurn
deriving Repr, DecidableEq

/-- Lookup in a JS-object-as-association-list (`obj[key]`): the value of the
first binding of the key. -/
def alistLookup {α : Type} : List (String × α) → String → Option α
  | [], _ => none
  | (k1, v1) :: rest, k => if k1 = k then some v1 else alistLookup rest k

/-- Assignment `obj[key] = v`: overwrite the first binding of the key in
place, or append a new binding. -/
def alistSet {α : Type} : List (String × α) → String → α → List (String × α)
  | [], k, v => [(k, v)]
  | (k1, v1) :: rest, k, v =>
      if k1 = k then (k, v) :: rest else (k1, v1) :: alistSet rest k v

/-- Deletion `map.delete(key)` (JS `Map` holds each key once; deleting drops
the first binding). -/
def alistDelete {α : Type} : List (String × α) → String → List (String × α)
  | [], _ => []
  | (k1, v1) :: rest, k =>
      if k1 = k then rest else (k1, v1) :: alistDelete rest k

/-- Modelled from the spec: the question catalog file
`shared/schemas/intake.questions.json` is not under `src/`; only its loader
(`slot-engine.ts` line 8) and the repository docs are.  Per §2/§4.1 the
catalog is a static, ordered, uniquely-keyed list of required-information
items, and the repository docs describe it as seven required intake questions
whose slots include `full_name`, `dob` and `callback_number`.  It is modelled
as seven distinct questions, all with `required := true`, in a fixed order. -/
def catalog : List IntakeQuestion :=
  [ ⟨"q_full_name", "May I have your full name, please?", "full_name", "personal", true⟩,
    ⟨"q_dob", "What is your date of birth?", "dob", "personal", true⟩,
    ⟨"q_callback_number", "What is the best phone number to reach you back?", "callback_number", "personal", true⟩,
    ⟨"q_chief_complaint", "What is the main reason for your visit today?", "chief_complaint", "visit", true⟩,
    ⟨"q_symptoms", "Can you describe the symptoms you are experiencing?", "symptoms", "medical", true⟩,
    ⟨"q_allergies", "Are you allergic to any medications?", "allergies", "medical", true⟩,
    ⟨"q_medications", "What medications are you currently taking?", "medications", "medical", true⟩ ]

/-- `SlotEngine.initializeState`: fresh state with an empty snapshot and an
empty turn log.  `questions` stands for the engine's loaded catalog
(`this.questions`); `now` stands for `new Date().toISOString()`. -/
def initializeState (questions : List IntakeQuestion) (callId now : String) :
    SlotEngineState :=
  { call_id := callId
    questions := questions
    current_question_index := 0
    snapshot :=
      { call_id := callId
        answers := []
        red_flags := []
        completed := false
        timestamp := now }
    turns := [] }

/-- The test `answer && answer.status === 'filled'` on `snapshot.answers[slot]`. -/
def answerFilled (snapshot : IntakeSnapshot) (slot : String) : Bool :=
  match alistLookup snapshot.answers slot with
  | some a => a.status = "filled"
  | none => false

/-- `SlotEngine.getNextQuestion`: first loaded question that is required and
whose slot answer is missing or not `filled`; `none` when the loop finishes. -/
def getNextQuestion (questions : List IntakeQuestion) (state : SlotEngineState) :
    Option IntakeQuestion :=
  questions.find? (fun q => q.required && !(answerFilled state.snapshot q.slot))

/-- `SlotEngine.checkCompletion`: `false` as soon as some required question's
slot answer is missing or not `filled`, else `true`. -/
def checkCompletion (questions : List IntakeQuestion) (state : SlotEngineState) :
    Bool :=
  questions.all (fun q => !q.required || answerFilled state.snapshot q.slot)

/-- The three patient-summary mirroring branches of `SlotEngine.updateSnapshot`
(`state.snapshot.patient = state.snapshot.patient || {}` then field update). -/
def mirrorPatient (patient : Option PatientInfo) (slot value : String) :
    Option PatientInfo :=
  if slot = "full_name" then
    some { patient.getD {} with full_name := some value }
  else if slot = "dob" then
    some { patient.getD {} with dob := some value }
  else if slot = "callback_number" then
    some { patient.getD {} with callback_number := some value }
  else
    patient

/-- `SlotEngine.updateSnapshot`: build the new `SlotAnswer` (status `filled`
iff `confidence >= 0.6`), store it under the slot key, refresh the timestamp,
mirror `full_name`/`dob`/`callback_number` into the patient summary, then
recompute `completed` via `checkCompletion` over the updated answers.  The
TypeScript mutates `state.snapshot` and returns it; here the updated state is
returned (its `snapshot` field is the returned snapshot). -/
def updateSnapshot (questions : List IntakeQuestion) (state : SlotEngineState)
    (slot value : String) (confidence : ℚ) (evidenceTurnIds : List String)
    (now : String) : SlotEngineState :=
  let answer : SlotAnswer :=
    { value := value
      confidence := confidence
      status := if confidence ≥ 6/10 then "filled" else "unknown"
      evidence_turn_ids := evidenceTurnIds }
  let snap1 : IntakeSnapshot :=
    { state.snapshot with
        answers := alistSet state.snapshot.answers slot answer
        timestamp := now }
  let snap2 : IntakeSnapshot :=
    { snap1 with patient := mirrorPatient snap1.patient slot value }
  let state2 : SlotEngineState := { state with snapshot := snap2 }
  { state2 with
      snapshot := { snap2 with completed := checkCompletion questions state2 } }

/-- `SlotEngine.addTranscriptTurn`: `state.turns.push(turn)` — an
unconditional append, with no check of `turn.call_id`. -/
def addTranscriptTurn (state : SlotEngineState) (turn : TranscriptTurn) :
    SlotEngineState :=
  { state with turns := state.turns ++ [turn] }

/-- The per-answer checks of `SlotEngine.validateSnapshot`.  The checks that
test JS runtime types which the typed model makes impossible
(`evidence_turn_ids` not an array) contribute no errors here. -/
def validateAnswer (slot : String) (a : SlotAnswer) : List String :=
  (if a.status = "" then ["Answer for " ++ slot ++ " must have status"]
   else if a.status = "filled" ∨ a.status = "unknown" ∨ a.status = "not_applicable" then []
   else ["Answer for " ++ slot ++ " has invalid status: " ++ a.status]) ++
  (if a.confidence < 0 ∨ a.confidence > 1 then
    ["Answer for " ++ slot ++ " must have confidence between 0 and 1"]
   else [])

/-- `SlotEngine.validateSnapshot`: collect every violation, in source order.
`!snapshot.call_id` and `!snapshot.timestamp` are falsy exactly on the empty
string in the typed model; the `typeof`/`Array.isArray` checks on fields the
model types correctly contribute no errors. -/
def validateSnapshot (snapshot : IntakeSnapshot) : Bool × List String :=
  let errors : List String :=
    (if snapshot.call_id = "" then ["call_id is required"] else []) ++
    (if snapshot.timestamp = "" then ["timestamp is required"] else []) ++
    (snapshot.answers.map (fun p => validateAnswer p.1 p.2)).flatten
  (errors.isEmpty, errors)

/-- `SlotEngine.buildContextSummary`: list the filled slots as
`slot: value` lines, or a fixed sentence when none are filled. -/
def buildContextSummary (state : SlotEngineState) : String :=
  let filledSlots :=
    (state.snapshot.answers.filter (fun p => p.2.status = "filled")).map
      (fun p => p.1 ++ ": " ++ p.2.value)
  if filledSlots.isEmpty then
    "No information collected yet."
  else
    "Collected information:\n" ++ String.intercalate "\n" filledSlots

/-- `SlotEngine.buildQuestionPrompt`: the LLM prompt containing the context
summary and the unmodified verbatim question text. -/
def buildQuestionPrompt (question : IntakeQuestion) (state : SlotEngineState) :
    String :=
  "You are asking the patient intake question. \n\nContext so far:\n" ++
    buildContextSummary state ++
    "\n\nNow ask this question VERBATIM:\n\x22" ++ question.verbatim ++
    "\x22\n\nBe warm, empathetic, and professional. If this is a sensitive question (allergies, medications), explain why we're asking."

/-- A safety rule (`RedFlagRule`): token-sets (all tokens of one set must
co-occur), a reason string and a priority string. -/
structure RedFlagRule where
  tokens : List (List String)
  reason : String
  priority : String
deriving Repr, DecidableEq

/-- A detected flag as returned by `SafetyDetector.detectRedFlags`. -/
structure RedFlag where
  reason : String
  priority : String
  evidence : List String
deriving Repr, DecidableEq

/-- The seven rules installed by the `SafetyDetector` constructor, verbatim
and in declaration order. -/
def safetyRules : List RedFlagRule :=
  [ { tokens :=
        [ ["chest pain", "shortness of breath"],
          ["chest pain", "can't breathe"],
          ["chest pain", "difficulty breathing"] ]
      reason := "Potential cardiac emergency: chest pain with respiratory distress"
      priority := "urgent" },
    { tokens :=
        [ ["face droop", "slurred speech"],
          ["facial droop", "speech slurred"],
          ["face drooping", "can't speak"],
          ["arm weakness", "face droop"] ]
      reason := "Potential stroke: FAST symptoms detected"
      priority := "urgent" },
    { tokens :=
        [ ["want to kill myself"],
          ["suicide"],
          ["suicidal"],
          ["end my life"],
          ["don't want to live"] ]
      reason := "Suicidal ideation detected"
      priority := "urgent" },
    { tokens :=
        [ ["throat swelling", "can't breathe"],
          ["allergic reaction", "throat closing"],
          ["anaphylaxis"],
          ["epipen", "can't breathe"] ]
      reason := "Potential anaphylaxis: severe allergic reaction"
      priority := "urgent" },
    { tokens :=
        [ ["bleeding", "won't stop"],
          ["heavy bleeding"],
          ["blood", "can't stop"] ]
      reason := "Severe bleeding reported"
      priority := "urgent" },
    { tokens :=
        [ ["passed out"],
          ["lost consciousness"],
          ["fainted"],
          ["blacked out"] ]
      reason := "Loss of consciousness reported"
      priority := "high" },
    { tokens :=
        [ ["worst pain", "ever"],
          ["10 out of 10 pain"],
          ["unbearable pain"] ]
      reason := "Severe pain reported"
      priority := "high" } ]

/-- JS regex `\w`: ASCII letters, digits and underscore. -/
def isWordChar (c : Char) : Bool :=
  ('a' ≤ c ∧ c ≤ 'z') ∨ ('A' ≤ c ∧ c ≤ 'Z') ∨ ('0' ≤ c ∧ c ≤ '9') ∨ c = '_'

/-- A `\b` boundary next to a word character of the pattern: satisfied at the
edge of the text or against a non-word character. -/
def boundaryOk : Option Char → Bool
  | none => true
  | some c => !isWordChar c

/-- Character-list prefix test. -/
def headMatches : List Char → List Char → Bool
  | [], _ => true
  | _ :: _, [] => false
  | a :: as, b :: bs => a = b && headMatches as bs

/-- The token matches at the head of `text`, with `prev` the character just
before that position: `prev` must be a boundary, the token's characters must
follow, and the character after the match must be a boundary. -/
def matchHere (tok text : List Char) (prev : Option Char) : Bool :=
  boundaryOk prev && headMatches tok text && boundaryOk (text.drop tok.length).head?

/-- Scan every position of the text for a boundary-delimited occurrence. -/
def wholeWordAux (tok : List Char) : Option Char → List Char → Bool
  | prev, [] => matchHere tok [] prev
  | prev, c :: rest => matchHere tok (c :: rest) prev || wholeWordAux tok (some c) rest

/-- The character list of a string, lowercased character by character
(`toLowerCase` on the ASCII texts at hand). -/
def lowerChars (s : String) : List Char :=
  s.toList.map Char.toLower

/-- The regex test `new RegExp('\\b' + escapeRegex(token) + '\\b', 'i').test(text)`
of `SafetyDetector.checkRule`, for the rule tokens (all of which begin and end
with a word character, so both `\b` require a word/non-word transition at the
match edges); case-insensitivity is realized by lowercasing both sides, the
text already arriving lowercased from `detectRedFlags`. -/
def wholeWordMatch (tok : String) (text : List Char) : Bool :=
  wholeWordAux (lowerChars tok) none text

/-- The combined patient text of `detectRedFlags`: texts of patient-speaker
turns joined by a single space, lowercased (kept as a character list). -/
def patientText (turns : List TranscriptTurn) : List Char :=
  lowerChars (String.intercalate " "
    ((turns.filter (fun t => t.speaker = "patient")).map (fun t => t.text)))

/-- `SafetyDetector.checkRule`: the matched token-sets, each rendered by
joining its tokens with `" + "`, in declaration order. -/
def checkRule (text : List Char) (rule : RedFlagRule) : List String :=
  (rule.tokens.filter (fun ts => ts.all (fun tok => wholeWordMatch tok text))).map
    (fun ts => String.intercalate " + " ts)

/-- `SafetyDetector.detectRedFlags`: one flag per rule whose `checkRule`
result is non-empty, in rule declaration order. -/
def detectRedFlags (turns : List TranscriptTurn) : List RedFlag :=
  let text := patientText turns
  safetyRules.filterMap (fun rule =>
    let hits := checkRule text rule
    if hits.isEmpty then none
    else some { reason := rule.reason, priority := rule.priority, evidence := hits })

/-- `SafetyDetector.checkRecentTurns`: `turns.slice(-windowSize)` then
`detectRedFlags`.  JS `slice(-w)` takes the last `w` elements when `w > 0`,
but `slice(-0)` is `slice(0)`, the whole array. -/
def checkRecentTurns (turns : List TranscriptTurn) (windowSize : Nat := 5) :
    List RedFlag :=
  let recentTurns :=
    if windowSize = 0 then turns else turns.drop (turns.length - windowSize)
  detectRedFlags recentTurns

/-- `SafetyDetector.checkLowConfidence`. -/
def checkLowConfidence (confidence : ℚ) (isRequiredSlot : Bool) : Bool :=
  isRequiredSlot && confidence < 6/10

/-- A registered event listener.  JS callbacks are compared by reference in
`removeEventListener` (`indexOf`); the model gives each callback an identity
`id` and records, in `throws`, whether invoking it raises an exception. -/
structure Listener where
  id : Nat
  throws : Bool
deriving Repr, DecidableEq

/-- Event payloads the orchestrator attaches to its events (`data`). -/
inductive EventData where
  | empty
  | stateData (s : SlotEngineState)
  | turnData (t : TranscriptTurn)
  | flagsData (fs : List RedFlag)
  | snapshotData (s : IntakeSnapshot)
  | slotData (slot value : String) (confidence : ℚ)
  | handoffData (call_id reason priority : String)
  | speakData (ssml emotion : String)
deriving Repr, DecidableEq

/-- An `OrchestratorEvent` (`{type, call_id, timestamp, data}`). -/
structure OrchestratorEvent where
  type : String
  call_id : String
  timestamp : String
  data : EventData
deriving Repr, DecidableEq

/-- An `OrchestratorAction` as returned by `processTranscript`. -/
inductive OrchestratorAction where
  | noAction
  | askQuestion (question : IntakeQuestion) (prompt : String)
  | requestHandoff (call_id reason priority : String)
  | speak (ssml emotion : String)
deriving Repr, DecidableEq

/-- The three structured LLM operations plus the unrecognized-name case
(the TypeScript `switch` silently ignores unknown names). -/
inductive LLMFunctionCall where
  | emitSnapshotCall (snapshot : IntakeSnapshot)
  | requestHandoffCall (call_id reason priority : String)
  | speakCall (ssml emotion : String)
  | unknownCall (name : String)
deriving Repr, DecidableEq

/-- The orchestrator's mutable fields: the session map, the snapshot map and
the listener registry, each a JS `Map` modelled as an association list in
insertion order.  In the TypeScript, `snapshots.get(c)` and
`sessions.get(c).snapshot` alias the same heap object whenever both exist;
the model maintains that aliasing by writing a session's snapshot into both
maps wherever the code mutates it. -/
structure Orchestrator where
  sessions : List (String × SlotEngineState) := []
  snapshots : List (String × IntakeSnapshot) := []
  eventListeners : List (String × List Listener) := []
deriving Repr, DecidableEq

/-- The listeners `emitEvent` iterates for an event: the entry under the
event's call id, then the entry under the wildcard id `*`, each in
registration order. -/
def eventRecipients (listeners : List (String × List Listener)) (callId : String) :
    List Listener :=
  ((alistLookup listeners callId).getD []) ++ ((alistLookup listeners "*").getD [])

/-- `Orchestrator.emitEvent`, made total by the per-listener `try`/`catch`:
every recipient is invoked in order; a recipient that throws contributes a
caught-and-logged error entry (`true`) instead of aborting delivery.  The
result is the invocation log: which listener ran, and whether its exception
was caught. -/
def emitEvent (listeners : List (String × List Listener))
    (event : OrchestratorEvent) : List (Nat × Bool) :=
  (eventRecipients listeners event.call_id).map (fun l => (l.id, l.throws))

/-- `Orchestrator.addEventListener`: append to the call id's list, creating
the entry if absent. -/
def addEventListener (listeners : List (String × List Listener))
    (callId : String) (l : Listener) : List (String × List Listener) :=
  match alistLookup listeners callId with
  | some ls => alistSet listeners callId (ls ++ [l])
  | none => listeners ++ [(callId, [l])]

/-- Remove the first occurrence of an element from a list (`indexOf` then
`splice(index, 1)`); no occurrence leaves the list unchanged. -/
def removeFirst : List Listener → Listener → List Listener
  | [], _ => []
  | x :: rest, l => if x = l then rest else x :: removeFirst rest l

/-- `Orchestrator.removeEventListener`. -/
def removeEventListener (listeners : List (String × List Listener))
    (callId : String) (l : Listener) : List (String × List Listener) :=
  match alistLookup listeners callId with
  | some ls => alistSet listeners callId (removeFirst ls l)
  | none => listeners

/-- `Orchestrator.initializeSession`: fresh state into the session map, its
snapshot into the snapshot map, then a `session_started` event. -/
def initializeSession (questions : List IntakeQuestion) (o : Orchestrator)
    (callId now : String) : Orchestrator × List OrchestratorEvent :=
  let state := initializeState questions callId now
  ({ o with
      sessions := alistSet o.sessions callId state
      snapshots := alistSet o.snapshots callId state.snapshot },
   [{ type := "session_started", call_id := callId, timestamp := now,
      data := .stateData state }])

/-- Write a mutated session state back into both maps — the functional image
of the TypeScript's in-place mutation of the shared snapshot object. -/
def storeSession (o : Orchestrator) (callId : String) (state : SlotEngineState) :
    Orchestrator :=
  { o with
      sessions := alistSet o.sessions callId state
      snapshots := alistSet o.snapshots callId state.snapshot }

/-- `Orchestrator.processTranscript`.  Returns the updated orchestrator, the
events emitted (in order) and the resulting action, or the thrown error
message.  The turn is appended unconditionally; `final`/`partial` and
`transcript_received` are always emitted; non-final turns stop with action
`none`; final turns run the safety screen over the recent window and, on any
returned flag, record the new reasons, emit `red_flag_detected` and return
`request_handoff` with the first flag's reason and priority; otherwise the
next question (or completion) decides the action. -/
def processTranscript (questions : List IntakeQuestion) (o : Orchestrator)
    (turn : TranscriptTurn) (now : String) :
    Except String (Orchestrator × List OrchestratorEvent × OrchestratorAction) :=
  match alistLookup o.sessions turn.call_id with
  | none => .error ("Session not found: " ++ turn.call_id)
  | some state0 =>
    let state1 := addTranscriptTurn state0 turn
    let ev1 : OrchestratorEvent :=
      { type := if turn.is_final then "final" else "partial",
        call_id := turn.call_id, timestamp := now, data := .turnData turn }
    let ev2 : OrchestratorEvent :=
      { type := "transcript_received", call_id := turn.call_id,
        timestamp := now, data := .turnData turn }
    if !turn.is_final then
      .ok (storeSession o turn.call_id state1, [ev1, ev2], .noAction)
    else
      let redFlags := checkRecentTurns state1.turns 5
      if redFlags.isEmpty = false then
        let newRedFlagList :=
          redFlags.foldl
            (fun acc f => if f.reason ∈ acc then acc else acc ++ [f.reason])
            state1.snapshot.red_flags
        let state2 :=
          { state1 with snapshot := { state1.snapshot with red_flags := newRedFlagList } }
        let ev3 : OrchestratorEvent :=
          { type := "red_flag_detected", call_id := turn.call_id,
            timestamp := now, data := .flagsData redFlags }
        let firstFlag := redFlags.headD { reason := "", priority := "", evidence := [] }
        .ok (storeSession o turn.call_id state2, [ev1, ev2, ev3],
             .requestHandoff turn.call_id firstFlag.reason firstFlag.priority)
      else
        match getNextQuestion questions state1 with
        | none =>
          let state2 :=
            { state1 with snapshot := { state1.snapshot with completed := true } }
          let ev3 : OrchestratorEvent :=
            { type := "intake_completed", call_id := turn.call_id,
              timestamp := now, data := .snapshotData state2.snapshot }
          .ok (storeSession o turn.call_id state2, [ev1, ev2, ev3],
               .speak "Thank you for providing all the information. A staff member will be with you shortly." "calm")
        | some nextQuestion =>
          let prompt := buildQuestionPrompt nextQuestion state1
          .ok (storeSession o turn.call_id state1, [ev1, ev2],
               .askQuestion nextQuestion prompt)

/-- `Orchestrator.emitSnapshot`: validate first; on any violation throw
`Invalid snapshot: <errors joined by ", ">` before touching any state (the
returned orchestrator is the input unchanged); on success store the snapshot
under the `callId` argument in the snapshot map and, when a session exists
under that id, in the session too, then emit `snapshot_updated` and
`snapshot_update`. -/
def emitSnapshot (o : Orchestrator) (callId : String) (snapshot : IntakeSnapshot)
    (now : String) : Orchestrator × Except String (List OrchestratorEvent) :=
  let validation := validateSnapshot snapshot
  if validation.2.isEmpty then
    let o1 : Orchestrator :=
      { o with
          snapshots := alistSet o.snapshots callId snapshot
          sessions :=
            match alistLookup o.sessions callId with
            | some st => alistSet o.sessions callId { st with snapshot := snapshot }
            | none => o.sessions }
    (o1, .ok
      [{ type := "snapshot_updated", call_id := callId, timestamp := now,
         data := .snapshotData snapshot },
       { type := "snapshot_update", call_id := callId, timestamp := now,
         data := .snapshotData snapshot }])
  else
    (o, .error ("Invalid snapshot: " ++ String.intercalate ", " validation.2))

/-- `Orchestrator.requestHandoff`: a pure notification. -/
def requestHandoff (call_id reason priority now : String) : OrchestratorEvent :=
  { type := "handoff_requested", call_id := call_id, timestamp := now,
    data := .handoffData call_id reason priority }

/-- `Orchestrator.processFunctionCall`: throw `Session not found` when the
call id has no session, else dispatch on the operation name; unknown names
fall through the `switch` silently. -/
def processFunctionCall (o : Orchestrator) (callId : String)
    (functionCall : LLMFunctionCall) (now : String) :
    Orchestrator × Except String (List OrchestratorEvent) :=
  match alistLookup o.sessions callId with
  | none => (o, .error ("Session not found: " ++ callId))
  | some _ =>
    match functionCall with
    | .emitSnapshotCall snapshot => emitSnapshot o callId snapshot now
    | .requestHandoffCall hc hr hp => (o, .ok [requestHandoff hc hr hp now])
    | .speakCall ssml emotion =>
      (o, .ok [{ type := "speak_request", call_id := callId, timestamp := now,
                 data := .speakData ssml emotion }])
    | .unknownCall _ => (o, .ok [])

/-- `Orchestrator.updateSlot`: throw `Session not found` for an unknown call
id; otherwise apply `SlotEngine.updateSnapshot`, store the result in both
maps and emit `slot_updated`. -/
def updateSlot (questions : List IntakeQuestion) (o : Orchestrator)
    (callId slot value : String) (confidence : ℚ) (evidenceTurnIds : List String)
    (now : String) :
    Except String (Orchestrator × List OrchestratorEvent × IntakeSnapshot) :=
  match alistLookup o.sessions callId with
  | none => .error ("Session not found: " ++ callId)
  | some state =>
    let state1 := updateSnapshot questions state slot value confidence evidenceTurnIds now
    .ok (storeSession o callId state1,
         [{ type := "slot_updated", call_id := callId, timestamp := now,
            data := .slotData slot value confidence }],
         state1.snapshot)

/-- `Orchestrator.endSession`: never throws.  When a session exists, emit
`session_ended` with its snapshot; in every case delete the listener entry
for the call id.  The session and snapshot maps are left untouched. -/
def endSession (o : Orchestrator) (callId now : String) :
    Orchestrator × List OrchestratorEvent :=
  let events :=
    match alistLookup o.sessions callId with
    | some state =>
      [{ type := "session_ended", call_id := callId, timestamp := now,
         data := EventData.snapshotData state.snapshot }]
    | none => []
  ({ o with eventListeners := alistDelete o.eventListeners callId }, events)

/-! Spec-side definitions: statements of the specified behaviour, written
from the specification's words, to be compared with the code model. -/

/-- Spec §4.2: `next_question(state)` is the first catalog question, in
catalog order, whose slot is not `filled`. -/
def specNextQuestion (state : SlotEngineState) : Option IntakeQuestion :=
  catalog.find? (fun q => !(answerFilled state.snapshot q.slot))

/-- Spec §3 invariant: `completed == true` iff every required catalog
question's slot has a `filled` answer. -/
def completionInvariant (snapshot : IntakeSnapshot) : Prop :=
  snapshot.completed = true ↔
    ∀ q ∈ catalog, q.required = true → answerFilled snapshot q.slot = true

instance (snapshot : IntakeSnapshot) : Decidable (completionInvariant snapshot) := by
  unfold completionInvariant
  infer_instance

/-- The last `w` elements of a turn list (spec §4.3, `screen_recent`). -/
def lastN (w : Nat) (turns : List TranscriptTurn) : List TranscriptTurn :=
  turns.drop (turns.length - w)

/-- Spec §4.3: `screen(turns)` returns one flag per rule having a token-set
all of whose tokens occur whole-word in the combined lowercased patient
text. -/
def specScreen (turns : List TranscriptTurn) : List RedFlag :=
  let text := patientText turns
  safetyRules.filterMap (fun rule =>
    if rule.tokens.any (fun ts => ts.all (fun tok => wholeWordMatch tok text)) then
      some { reason := rule.reason, priority := rule.priority,
             evidence := checkRule text rule }
    else none)

/-- Invariant restated over a `processTranscript` result: whatever session
state the returned orchestrator holds for the call satisfies the completed
iff all-required-filled biconditional. -/
def invariantAfter
    (r : Except String (Orchestrator × List OrchestratorEvent × OrchestratorAction))
    (callId : String) : Prop :=
  ∀ o1 evs act state1, r = .ok (o1, evs, act) →
    alistLookup o1.sessions callId = some state1 →
    completionInvariant state1.snapshot

/-- All listener ids registered anywhere in the registry, in order. -/
def registeredIds (listeners : List (String × List Listener)) : List Nat :=
  listeners.flatMap (fun p => p.2.map (fun l => l.id))

/-- The action component of a `processTranscript` result. -/
def actionOf
    (r : Except String (Orchestrator × List OrchestratorEvent × OrchestratorAction)) :
    Option OrchestratorAction :=
  match r with
  | .ok (_, _, act) => some act
  | .error _ => none

/-! Helper lemmas. -/

theorem alistLookup_set_self {α : Type} (l : List (String × α)) (k : String) (v : α) :
    alistLookup (alistSet l k v) k = some v := by
  induction l with
  | nil => simp [alistSet, alistLookup]
  | cons hd tl ih =>
    obtain ⟨k1, v1⟩ := hd
    by_cases h : k1 = k
    · simp [alistSet, h, alistLookup]
    · simpa [alistSet, h, alistLookup] using ih

theorem alistLookup_set_ne {α : Type} (l : List (String × α)) (k k1 : String) (v : α)
    (h : k1 ≠ k) : alistLookup (alistSet l k v) k1 = alistLookup l k1 := by
  induction l with
  | nil => simp [alistSet, alistLookup, Ne.symm h]
  | cons hd tl ih =>
    obtain ⟨k2, v2⟩ := hd
    by_cases h2 : k2 = k
    · subst h2
      simp [alistSet, alistLookup, Ne.symm h]
    · by_cases h3 : k2 = k1 <;> simp [alistSet, alistLookup, h2, h3, ih, h]

theorem list_find?_congr {α : Type} (p q : α → Bool) :
    ∀ l : List α, (∀ a ∈ l, p a = q a) → l.find? p = l.find? q := by
  intro l
  induction l with
  | nil => intro _; rfl
  | cons hd tl ih =>
    intro h
    have hhd := h hd (by simp)
    simp only [List.find?]
    rw [← hhd]
    cases hp : p hd
    · exact ih (fun a ha => h a (by simp [ha]))
    · rfl

theorem list_filterMap_head {α β : Type} (f : α → Option β) :
    ∀ (l : List α) (x : β) (xs : List β), l.filterMap f = x :: xs →
      ∃ a, l.find? (fun a => (f a).isSome) = some a ∧ f a = some x := by
  intro l
  induction l with
  | nil => intro x xs h; simp [List.filterMap] at h
  | cons hd tl ih =>
    intro x xs h
    cases hf : f hd with
    | none =>
      rw [List.filterMap_cons_none hf] at h
      obtain ⟨a, ha1, ha2⟩ := ih x xs h
      exact ⟨a, by simp [List.find?, hf, ha1], ha2⟩
    | some b =>
      rw [List.filterMap_cons_some hf] at h
      obtain ⟨hb, _⟩ := List.cons_eq_cons.mp h
      exact ⟨hd, by simp [List.find?, hf], by rw [hf, hb]⟩

theorem list_filterMap_map_sublist {α β γ : Type} (f : α → Option β)
    (g : β → γ) (h : α → γ) (hc : ∀ a x, f a = some x → g x = h a) :
    ∀ l : List α, ((l.filterMap f).map g).Sublist (l.map h) := by
  intro l
  induction l with
  | nil => simp
  | cons hd tl ih =>
    cases hf : f hd with
    | none =>
      rw [List.filterMap_cons_none hf]
      exact ih.cons (h hd)
    | some b =>
      rw [List.filterMap_cons_some hf]
      simpa [hc hd b hf] using ih.cons₂ (h hd)

/-- The red-flag appending loop of `processTranscript`: with pairwise
distinct incoming reasons, it appends exactly the reasons not already
present, in order. -/
theorem foldl_dedup_append (flags : List RedFlag) :
    ∀ acc : List String, (flags.map (fun f => f.reason)).Nodup →
      flags.foldl (fun acc f => if f.reason ∈ acc then acc else acc ++ [f.reason]) acc =
        acc ++ (flags.map (fun f => f.reason)).filter (fun r => !(acc.contains r)) := by
  induction flags with
  | nil => intro acc _; simp
  | cons hd tl ih =>
    intro acc hnd
    simp only [List.map_cons, List.nodup_cons] at hnd
    obtain ⟨hni, hnd⟩ := hnd
    by_cases hmem : hd.reason ∈ acc
    · have hct : acc.contains hd.reason = true := by simpa using hmem
      rw [List.foldl_cons, if_pos hmem, List.map_cons, List.filter_cons]
      simp only [hct, Bool.not_true]
      rw [if_neg (by simp)]
      exact ih acc hnd
    · have hcf : acc.contains hd.reason = false := by simpa using hmem
      rw [List.foldl_cons, if_neg hmem, List.map_cons, List.filter_cons]
      simp only [hcf, Bool.not_false]
      rw [if_pos (by simp)]
      rw [ih (acc ++ [hd.reason]) hnd]
      have hfilter :
          (tl.map (fun f => f.reason)).filter (fun r => !((acc ++ [hd.reason]).contains r)) =
          (tl.map (fun f => f.reason)).filter (fun r => !(acc.contains r)) := by
        apply List.filter_congr
        intro r hr
        have hne : r ≠ hd.reason := fun he => hni (he ▸ hr)
        simp [List.contains, hne]
      rw [hfilter]
      simp

/-- The reasons of the flags returned by one screening are pairwise
distinct: they form a sublist of the (distinct) rule reasons. -/
theorem detectRedFlags_reasons_nodup (turns : List TranscriptTurn) :
    ((detectRedFlags turns).map (fun f => f.reason)).Nodup := by
  have hsub : ((detectRedFlags turns).map (fun f => f.reason)).Sublist
      (safetyRules.map (fun r => r.reason)) := by
    simp only [detectRedFlags]
    apply list_filterMap_map_sublist
    intro a x hx
    by_cases he : (checkRule (patientText turns) a).isEmpty = true
    · simp only [he, if_true] at hx
      exact absurd hx (by simp)
    · simp only [he, if_false, Bool.false_eq_true] at hx
      cases hx
      rfl
  exact hsub.nodup (by decide)

theorem checkCompletion_eq_true_iff (questions : List IntakeQuestion)
    (state : SlotEngineState) :
    checkCompletion questions state = true ↔
      ∀ q ∈ questions, q.required = true → answerFilled state.snapshot q.slot = true := by
  unfold checkCompletion
  rw [List.all_eq_true]
  constructor
  · intro h q hq hreq
    have := h q hq
    simpa [hreq] using this
  · intro h q hq
    cases hreq : q.required
    · simp [hreq]
    · simp [hreq, h q hq hreq]

theorem getNextQuestion_eq_none_iff (questions : List IntakeQuestion)
    (state : SlotEngineState) :
    getNextQuestion questions state = none ↔
      ∀ q ∈ questions, q.required = true → answerFilled state.snapshot q.slot = true := by
  unfold getNextQuestion
  rw [List.find?_eq_none]
  constructor
  · intro h q hq hreq
    have := h q hq
    cases hf : answerFilled state.snapshot q.slot
    · exact absurd (by simp [hreq, hf]) this
    · rfl
  · intro h q hq
    cases hreq : q.required
    · simp [hreq]
    · simp [hreq, h q hq hreq]

theorem answerFilled_after_set (snapshot : IntakeSnapshot) (slot s2 : String)
    (a : SlotAnswer) :
    answerFilled { snapshot with answers := alistSet snapshot.answers slot a } s2 =
      if s2 = slot then (a.status = "filled" : Bool) else answerFilled snapshot s2 := by
  unfold answerFilled
  by_cases h : s2 = slot
  · subst h
    rw [alistLookup_set_self]
    simp
  · rw [alistLookup_set_ne _ _ _ _ h, if_neg h]

/-! Claim theorems. -/

/-- C4: for every state, `next_question` returns the first question of the
catalog, in catalog order, whose slot is not `filled` (the catalog's
questions are all required), and `none` when none remain; it never returns a
question whose slot is already `filled`; and it is deterministic — its value
is a function of the snapshot's answers alone, so repeated calls without
intervening mutation agree. -/
theorem next_question_first_unfilled (state : SlotEngineState) :
    getNextQuestion catalog state = specNextQuestion state ∧
    (getNextQuestion catalog state = none ↔
      ∀ q ∈ catalog, answerFilled state.snapshot q.slot = true) ∧
    (∀ q, getNextQuestion catalog state = some q →
      answerFilled state.snapshot q.slot = false) ∧
    (∀ s2 : SlotEngineState, s2.snapshot.answers = state.snapshot.answers →
      getNextQuestion catalog s2 = getNextQuestion catalog state) := by
  have hreq : ∀ q ∈ catalog, q.required = true := by decide
  refine ⟨?_, ?_, ?_, ?_⟩
  · unfold getNextQuestion specNextQuestion
    apply list_find?_congr
    intro q hq
    simp [hreq q hq]
  · rw [getNextQuestion_eq_none_iff]
    constructor
    · intro h q hq
      exact h q hq (hreq q hq)
    · intro h q hq _
      exact h q hq
  · intro q hfind
    have hp := List.find?_some hfind
    simp only [Bool.and_eq_true] at hp
    simpa using hp.2
  · intro s2 h2
    unfold getNextQuestion
    apply list_find?_congr
    intro q _
    simp [answerFilled, h2]

/-- C4 witness: concrete instantiation at a fresh session state. -/
theorem next_question_first_unfilled_witness :
    getNextQuestion catalog (initializeState catalog "call-1" "t0") =
      specNextQuestion (initializeState catalog "call-1" "t0") ∧
    getNextQuestion catalog (initializeState catalog "call-1" "t0") =
      getNextQuestion catalog (initializeState catalog "call-1" "t0") :=
  ⟨(next_question_first_unfilled (initializeState catalog "call-1" "t0")).1,
   (next_question_first_unfilled (initializeState catalog "call-1" "t0")).2.2.2
     (initializeState catalog "call-1" "t0") rfl⟩

/-- C3: `apply_value` creates or unconditionally overwrites the slot's
answer, with status `filled` exactly when the confidence is at least 0.6 and
`unknown` otherwise; it mirrors `full_name`, `dob` and `callback_number`
into the patient summary, recomputes `completed` over all required catalog
questions, and refreshes the timestamp.  Moreover applying a value with
confidence 0.59 to the (unfilled) slot of the pending question leaves that
slot `unknown`, and `next_question` still returns that same question. -/
theorem apply_value_overwrites :
    (∀ (state : SlotEngineState) (slot value : String) (confidence : ℚ)
        (ev : List String) (now : String),
      alistLookup (updateSnapshot catalog state slot value confidence ev now).snapshot.answers slot =
        some { value := value, confidence := confidence,
               status := if confidence ≥ 6/10 then "filled" else "unknown",
               evidence_turn_ids := ev } ∧
      (answerFilled (updateSnapshot catalog state slot value confidence ev now).snapshot slot = true ↔
        confidence ≥ 6/10) ∧
      (slot = "full_name" →
        ((updateSnapshot catalog state slot value confidence ev now).snapshot.patient.getD {}).full_name = some value) ∧
      (slot = "dob" →
        ((updateSnapshot catalog state slot value confidence ev now).snapshot.patient.getD {}).dob = some value) ∧
      (slot = "callback_number" →
        ((updateSnapshot catalog state slot value confidence ev now).snapshot.patient.getD {}).callback_number = some value) ∧
      ((updateSnapshot catalog state slot value confidence ev now).snapshot.completed = true ↔
        ∀ q ∈ catalog, q.required = true →
          answerFilled (updateSnapshot catalog state slot value confidence ev now).snapshot q.slot = true) ∧
      (updateSnapshot catalog state slot value confidence ev now).snapshot.timestamp = now) ∧
    (∀ (state : SlotEngineState) (value : String) (ev : List String)
        (now : String) (q : IntakeQuestion),
      getNextQuestion catalog state = some q →
      ((alistLookup (updateSnapshot catalog state q.slot value (59/100) ev now).snapshot.answers q.slot).map
          (fun a => a.status) = some "unknown") ∧
      getNextQuestion catalog (updateSnapshot catalog state q.slot value (59/100) ev now) = some q) := by
  constructor
  · intro state slot value confidence ev now
    have h1 : alistLookup (updateSnapshot catalog state slot value confidence ev now).snapshot.answers slot =
        some { value := value, confidence := confidence,
               status := if confidence ≥ 6/10 then "filled" else "unknown",
               evidence_turn_ids := ev } :=
      alistLookup_set_self state.snapshot.answers slot _
    refine ⟨h1, ?_, ?_, ?_, ?_, ?_, rfl⟩
    · unfold answerFilled
      rw [h1]
      by_cases hc : confidence ≥ 6/10 <;> simp [hc]
    · intro h
      subst h
      simp [updateSnapshot, mirrorPatient]
    · intro h
      subst h
      simp [updateSnapshot, mirrorPatient]
    · intro h
      subst h
      simp [updateSnapshot, mirrorPatient]
    · exact checkCompletion_eq_true_iff catalog
        (updateSnapshot catalog state slot value confidence ev now)
  · intro state value ev now q hfind
    have hp := List.find?_some hfind
    simp only [Bool.and_eq_true] at hp
    have hunf : answerFilled state.snapshot q.slot = false := by simpa using hp.2
    have hlt : ¬((59 : ℚ)/100 ≥ 6/10) := by norm_num
    have h1 : alistLookup (updateSnapshot catalog state q.slot value (59/100) ev now).snapshot.answers q.slot =
        some { value := value, confidence := 59/100,
               status := if (59 : ℚ)/100 ≥ 6/10 then "filled" else "unknown",
               evidence_turn_ids := ev } :=
      alistLookup_set_self state.snapshot.answers q.slot _
    constructor
    · rw [h1]
      simp [hlt]
    · have hAF : ∀ s, answerFilled (updateSnapshot catalog state q.slot value (59/100) ev now).snapshot s =
          if s = q.slot
          then (({ value := value, confidence := (59 : ℚ)/100,
                   status := if (59 : ℚ)/100 ≥ 6/10 then "filled" else "unknown",
                   evidence_turn_ids := ev } : SlotAnswer).status = "filled" : Bool)
          else answerFilled state.snapshot s :=
        fun s => answerFilled_after_set state.snapshot q.slot s _
      unfold getNextQuestion
      rw [list_find?_congr _ (fun q2 => q2.required && !(answerFilled state.snapshot q2.slot))
          catalog ?_]
      · exact hfind
      · intro q2 _
        by_cases hqs : q2.slot = q.slot
        · rw [hAF q2.slot, if_pos hqs]
          simp [hlt, hqs, hunf]
        · rw [hAF q2.slot, if_neg hqs]

/-- C3 witness: concrete instantiations — high-confidence `full_name` update
mirrors the patient name; a 0.59-confidence update of the pending question's
slot leaves `next_question` on that question. -/
theorem apply_value_overwrites_witness :
    ((updateSnapshot catalog (initializeState catalog "call-2" "t0") "full_name" "Jane Doe" (92/100) ["turn-1"] "t1").snapshot.patient.getD {}).full_name = some "Jane Doe" ∧
    getNextQuestion catalog
        (updateSnapshot catalog (initializeState catalog "call-2" "t0") "full_name" "Jane Doe" (59/100) ["turn-1"] "t1") =
      some ⟨"q_full_name", "May I have your full name, please?", "full_name", "personal", true⟩ :=
  ⟨(apply_value_overwrites.1 (initializeState catalog "call-2" "t0") "full_name" "Jane Doe" (92/100) ["turn-1"] "t1").2.2.1 rfl,
   (apply_value_overwrites.2 (initializeState catalog "call-2" "t0") "Jane Doe" ["turn-1"] "t1"
      ⟨"q_full_name", "May I have your full name, please?", "full_name", "personal", true⟩
      (by decide)).2⟩

/-- C9 counterexample: `record_turn` does not fail on a call-id mismatch.
A turn whose `call_id` is `call-b` is appended to the log of a state for
`call-a`, with no error and the log changed. -/
theorem record_turn_mismatch_cex :
    (initializeState catalog "call-a" "t0").call_id = "call-a" ∧
    (addTranscriptTurn (initializeState catalog "call-a" "t0")
        { turn_id := "turn-1", call_id := "call-b", speaker := "patient",
          text := "hello", is_final := true }).turns =
      [{ turn_id := "turn-1", call_id := "call-b", speaker := "patient",
         text := "hello", is_final := true }] := by
  constructor
  · rfl
  · rfl

/-- C9 amended: `record_turn` appends the turn to the state's turn log
unconditionally — it performs no `INVALID_CALL` check, and changes nothing
else; the orchestrator's `processTranscript`, for its part, always selects
the session stored under `turn.call_id`, so on that path the appended turn's
call id always equals the session key. -/
theorem record_turn_appends_unconditionally :
    (∀ (state : SlotEngineState) (turn : TranscriptTurn),
      (addTranscriptTurn state turn).turns = state.turns ++ [turn] ∧
      (addTranscriptTurn state turn).call_id = state.call_id ∧
      (addTranscriptTurn state turn).snapshot = state.snapshot) ∧
    (∀ (o : Orchestrator) (turn : TranscriptTurn) (now : String)
        (state : SlotEngineState),
      alistLookup o.sessions turn.call_id = some state →
      ∀ o1 evs act, processTranscript catalog o turn now = .ok (o1, evs, act) →
        ∀ state1, alistLookup o1.sessions turn.call_id = some state1 →
          state1.turns = state.turns ++ [turn]) := by
  constructor
  · intro state turn
    exact ⟨rfl, rfl, rfl⟩
  · intro o turn now state h o1 evs act hok state1 hlook
    unfold processTranscript at hok
    rw [h] at hok
    by_cases hfin : turn.is_final = true
    · simp only [hfin, Bool.not_true, Bool.false_eq_true, if_false] at hok
      rcases hflags : checkRecentTurns (addTranscriptTurn state turn).turns 5 with _ | ⟨f, rest⟩
      · rw [hflags] at hok
        rcases hnq : getNextQuestion catalog (addTranscriptTurn state turn) with _ | q
        · rw [hnq] at hok
          simp only [List.isEmpty_nil, List.isEmpty_cons, Bool.true_eq_false, Bool.false_eq_true, eq_self_iff_true, if_true, if_false, List.headD_cons, Except.ok.injEq, Prod.mk.injEq] at hok
          obtain ⟨ho1, _, _⟩ := hok
          subst ho1
          rw [storeSession, ] at hlook
          simp only [alistLookup_set_self] at hlook
          cases hlook
          rfl
        · rw [hnq] at hok
          simp only [List.isEmpty_nil, List.isEmpty_cons, Bool.true_eq_false, Bool.false_eq_true, eq_self_iff_true, if_true, if_false, List.headD_cons, Except.ok.injEq, Prod.mk.injEq] at hok
          obtain ⟨ho1, _, _⟩ := hok
          subst ho1
          simp only [storeSession, alistLookup_set_self] at hlook
          cases hlook
          rfl
      · rw [hflags] at hok
        simp only [List.isEmpty_nil, List.isEmpty_cons, Bool.true_eq_false, Bool.false_eq_true, eq_self_iff_true, if_true, if_false, List.headD_cons, Except.ok.injEq, Prod.mk.injEq] at hok
        obtain ⟨ho1, _, _⟩ := hok
        subst ho1
        simp only [storeSession, alistLookup_set_self] at hlook
        cases hlook
        rfl
    · simp only [Bool.not_eq_true] at hfin
      simp only [hfin, Bool.not_false, if_true] at hok
      simp only [List.isEmpty_nil, List.isEmpty_cons, Bool.true_eq_false, Bool.false_eq_true, eq_self_iff_true, if_true, if_false, List.headD_cons, Except.ok.injEq, Prod.mk.injEq] at hok
      obtain ⟨ho1, _, _⟩ := hok
      subst ho1
      simp only [storeSession, alistLookup_set_self] at hlook
      cases hlook
      rfl

/-- C9 amended witness: concrete instantiation — a matching turn appended
through the orchestrator lands in the stored session's log. -/
theorem record_turn_appends_unconditionally_witness :
    (addTranscriptTurn (initializeState catalog "call-a" "t0")
        { turn_id := "turn-1", call_id := "call-b", speaker := "patient",
          text := "hello", is_final := true }).snapshot =
      (initializeState catalog "call-a" "t0").snapshot :=
  (record_turn_appends_unconditionally.1 (initializeState catalog "call-a" "t0")
    { turn_id := "turn-1", call_id := "call-b", speaker := "patient",
      text := "hello", is_final := true }).2.2

/-- C10: `emitSnapshot` keys storage solely by its `callId` argument: for a
live session under `callId` and a snapshot passing validation, the snapshot
is stored under `callId` in the snapshot map and written into that session,
regardless of the snapshot's own `call_id` field; and validation constrains
only the snapshot itself — it requires `call_id` to be non-empty, never that
it equal `callId`. -/
theorem emit_snapshot_keyed_by_argument :
    (∀ (o : Orchestrator) (callId : String) (snapshot : IntakeSnapshot)
        (now : String) (state : SlotEngineState),
      alistLookup o.sessions callId = some state →
      (validateSnapshot snapshot).2 = [] →
      (emitSnapshot o callId snapshot now).1.snapshots =
          alistSet o.snapshots callId snapshot ∧
      alistLookup (emitSnapshot o callId snapshot now).1.sessions callId =
          some { state with snapshot := snapshot } ∧
      (emitSnapshot o callId snapshot now).2 =
        .ok [{ type := "snapshot_updated", call_id := callId, timestamp := now,
               data := .snapshotData snapshot },
             { type := "snapshot_update", call_id := callId, timestamp := now,
               data := .snapshotData snapshot }]) ∧
    (∀ snapshot : IntakeSnapshot,
      (validateSnapshot snapshot).2 = [] ↔
        snapshot.call_id ≠ "" ∧ snapshot.timestamp ≠ "" ∧
          ∀ p ∈ snapshot.answers, validateAnswer p.1 p.2 = []) := by
  constructor
  · intro o callId snapshot now state hsess hvalid
    simp only [emitSnapshot, hvalid, hsess, List.isEmpty_nil, if_true]
    refine ⟨trivial, ?_, trivial⟩
    exact alistLookup_set_self o.sessions callId _
  · intro snapshot
    constructor
    · intro h
      simp only [validateSnapshot, List.append_eq_nil, List.flatten_eq_nil_iff] at h
      obtain ⟨⟨h1, h2⟩, h3⟩ := h
      refine ⟨fun hc => ?_, fun ht => ?_, fun p hp => ?_⟩
      · rw [if_pos hc] at h1
        simp at h1
      · rw [if_pos ht] at h2
        simp at h2
      · exact h3 (validateAnswer p.1 p.2) (List.mem_map_of_mem _ hp)
    · rintro ⟨h1, h2, h3⟩
      simp only [validateSnapshot, List.append_eq_nil, List.flatten_eq_nil_iff]
      refine ⟨⟨?_, ?_⟩, ?_⟩
      · rw [if_neg h1]
      · rw [if_neg h2]
      · intro l hl
        obtain ⟨p, hp, hpe⟩ := List.mem_map.mp hl
        rw [← hpe]
        exact h3 p hp

/-- C10 witness: a validated snapshot whose own `call_id` is `call-other` is
stored under the argument call id `call-1` and written into that session. -/
theorem emit_snapshot_keyed_by_argument_witness :
    alistLookup
        (emitSnapshot (initializeSession catalog {} "call-1" "t0").1 "call-1"
          { call_id := "call-other", answers := [], red_flags := [],
            completed := false, timestamp := "t1" } "t1").1.sessions "call-1" =
      some { initializeState catalog "call-1" "t0" with
               snapshot := { call_id := "call-other", answers := [],
                             red_flags := [], completed := false,
                             timestamp := "t1" } } :=
  ((emit_snapshot_keyed_by_argument.1 (initializeSession catalog {} "call-1" "t0").1
      "call-1"
      { call_id := "call-other", answers := [], red_flags := [],
        completed := false, timestamp := "t1" } "t1"
      (initializeState catalog "call-1" "t0") (by decide) (by decide)).2).1

/-- C5 counterexample: `screen_recent` with window size 0 does not screen
the last 0 turns (the empty list): JS `slice(-0)` is `slice(0)`, so the
whole list is screened and a flag is returned where the claim demands none. -/
theorem screen_recent_window_zero_cex :
    checkRecentTurns
        [{ turn_id := "turn-1", call_id := "call-1", speaker := "patient",
           text := "suicide", is_final := true }] 0 ≠
      detectRedFlags
        (lastN 0
          [{ turn_id := "turn-1", call_id := "call-1", speaker := "patient",
             text := "suicide", is_final := true }]) := by
  decide

/-- C5 amended: `screen` concatenates the patient turns' text (lowercased)
and returns one flag per rule with a fully-matching token-set; and
`screen_recent` equals `screen` of the last `w` turns for every window size
`w ≥ 1`, while window size 0 screens the entire list. -/
theorem screen_matches_rules :
    (∀ turns, detectRedFlags turns = specScreen turns) ∧
    (∀ turns (w : Nat), 1 ≤ w →
      checkRecentTurns turns w = detectRedFlags (lastN w turns)) ∧
    (∀ turns, checkRecentTurns turns 0 = detectRedFlags turns) := by
  have hempty : ∀ (text : List Char) (rule : RedFlagRule),
      checkRule text rule = [] ↔
        ∀ ts ∈ rule.tokens, ¬(ts.all (fun tok => wholeWordMatch tok text) = true) := by
    intro text rule
    unfold checkRule
    rw [List.map_eq_nil_iff, List.filter_eq_nil_iff]
  refine ⟨?_, ?_, ?_⟩
  · intro turns
    unfold detectRedFlags specScreen
    apply List.filterMap_congr
    intro rule _
    by_cases hany : rule.tokens.any
        (fun ts => ts.all (fun tok => wholeWordMatch tok (patientText turns))) = true
    · obtain ⟨ts, hts, hall⟩ := List.any_eq_true.mp hany
      have hne : checkRule (patientText turns) rule ≠ [] := by
        intro h0
        exact (hempty _ rule).mp h0 ts hts hall
      have hf : (checkRule (patientText turns) rule).isEmpty = false :=
        List.isEmpty_eq_false.mpr hne
      simp only [hf, Bool.false_eq_true, if_false, if_pos hany]
    · have h0 : checkRule (patientText turns) rule = [] :=
        (hempty _ rule).mpr
          (fun ts hts hall => hany (List.any_eq_true.mpr ⟨ts, hts, hall⟩))
      simp only [h0, List.isEmpty_nil, if_true, if_neg hany]
  · intro turns w hw
    unfold checkRecentTurns lastN
    rw [if_neg (by omega)]
  · intro turns
    rfl

/-- C5 amended witness: concrete instantiations at the default window. -/
theorem screen_matches_rules_witness :
    detectRedFlags
        [{ turn_id := "turn-1", call_id := "call-1", speaker := "patient",
           text := "suicide", is_final := true }] =
      specScreen
        [{ turn_id := "turn-1", call_id := "call-1", speaker := "patient",
           text := "suicide", is_final := true }] ∧
    checkRecentTurns
        [{ turn_id := "turn-1", call_id := "call-1", speaker := "patient",
           text := "suicide", is_final := true }] 5 =
      detectRedFlags
        (lastN 5
          [{ turn_id := "turn-1", call_id := "call-1", speaker := "patient",
             text := "suicide", is_final := true }]) :=
  ⟨screen_matches_rules.1 _,
   screen_matches_rules.2.1 _ 5 (by decide)⟩

/-- C8 counterexample: `end_session` on a call id with no live session does
not fail — it returns normally, removes the id's listener entry, and emits
nothing. -/
theorem end_session_unknown_id_cex :
    endSession
        { sessions := [], snapshots := [],
          eventListeners := [("ghost", [{ id := 0, throws := false }]),
                             ("live", [{ id := 1, throws := false }])] }
        "ghost" "t9" =
      ({ sessions := [], snapshots := [],
         eventListeners := [("live", [{ id := 1, throws := false }])] }, []) := by
  decide

/-- C8 amended: `processTranscript`, `processFunctionCall` and `updateSlot`
invoked on a call id with no live session fail immediately with the
session-not-found error; `endSession` does not fail — it emits no event and
still removes the call id's listener entry. -/
theorem unknown_call_id_failures :
    ∀ (o : Orchestrator) (turn : TranscriptTurn) (callId slot value : String)
      (confidence : ℚ) (ev : List String) (fc : LLMFunctionCall) (now : String),
      (alistLookup o.sessions turn.call_id = none →
        processTranscript catalog o turn now =
          .error ("Session not found: " ++ turn.call_id)) ∧
      (alistLookup o.sessions callId = none →
        processFunctionCall o callId fc now =
          (o, .error ("Session not found: " ++ callId)) ∧
        updateSlot catalog o callId slot value confidence ev now =
          .error ("Session not found: " ++ callId) ∧
        endSession o callId now =
          ({ o with eventListeners := alistDelete o.eventListeners callId }, [])) := by
  intro o turn callId slot value confidence ev fc now
  constructor
  · intro h
    unfold processTranscript
    rw [h]
  · intro h
    refine ⟨?_, ?_, ?_⟩
    · unfold processFunctionCall
      rw [h]
    · unfold updateSlot
      rw [h]
    · unfold endSession
      rw [h]

/-- C8 amended witness: concrete instantiation on an empty orchestrator. -/
theorem unknown_call_id_failures_witness :
    processTranscript catalog { sessions := [], snapshots := [], eventListeners := [] }
        { turn_id := "turn-1", call_id := "nope", speaker := "patient",
          text := "hi", is_final := true } "t0" =
      .error ("Session not found: " ++ "nope") :=
  (unknown_call_id_failures { sessions := [], snapshots := [], eventListeners := [] }
      { turn_id := "turn-1", call_id := "nope", speaker := "patient",
        text := "hi", is_final := true }
      "nope" "s" "v" 1 [] (.unknownCall "x") "t0").1 rfl

/-- C6: `emit_snapshot` validates before mutating: on any violation it
rejects with the validation error carrying every collected violation and
returns the orchestrator unchanged (no stored snapshot of any call is
altered); on success it stores the snapshot and broadcasts the snapshot
events; and each representable structural violation — missing `call_id`,
missing `timestamp`, out-of-range confidence, invalid status — contributes
its message to the enumerated error list. -/
theorem emit_snapshot_validation :
    ∀ (o : Orchestrator) (callId : String) (snapshot : IntakeSnapshot) (now : String),
      ((validateSnapshot snapshot).2 ≠ [] →
        emitSnapshot o callId snapshot now =
          (o, .error ("Invalid snapshot: " ++
                String.intercalate ", " (validateSnapshot snapshot).2))) ∧
      ((validateSnapshot snapshot).2 = [] →
        (emitSnapshot o callId snapshot now).1.snapshots =
            alistSet o.snapshots callId snapshot ∧
        (emitSnapshot o callId snapshot now).2 =
          .ok [{ type := "snapshot_updated", call_id := callId, timestamp := now,
                 data := .snapshotData snapshot },
               { type := "snapshot_update", call_id := callId, timestamp := now,
                 data := .snapshotData snapshot }]) ∧
      (snapshot.call_id = "" → "call_id is required" ∈ (validateSnapshot snapshot).2) ∧
      (snapshot.timestamp = "" → "timestamp is required" ∈ (validateSnapshot snapshot).2) ∧
      (∀ slot a, (slot, a) ∈ snapshot.answers → (a.confidence < 0 ∨ a.confidence > 1) →
        ("Answer for " ++ slot ++ " must have confidence between 0 and 1") ∈
          (validateSnapshot snapshot).2) ∧
      (∀ slot a, (slot, a) ∈ snapshot.answers → a.status ≠ "" →
        a.status ≠ "filled" → a.status ≠ "unknown" → a.status ≠ "not_applicable" →
        ("Answer for " ++ slot ++ " has invalid status: " ++ a.status) ∈
          (validateSnapshot snapshot).2) := by
  intro o callId snapshot now
  have hmem : ∀ slot a, (slot, a) ∈ snapshot.answers →
      ∀ e ∈ validateAnswer slot a, e ∈ (validateSnapshot snapshot).2 := by
    intro slot a hsa e he
    simp only [validateSnapshot]
    refine List.mem_append.mpr (Or.inr ?_)
    refine List.mem_flatten.mpr ⟨validateAnswer slot a, ?_, he⟩
    exact List.mem_map.mpr ⟨(slot, a), hsa, rfl⟩
  refine ⟨?_, ?_, ?_, ?_, ?_, ?_⟩
  · intro hne
    have hf : (validateSnapshot snapshot).2.isEmpty = false :=
      List.isEmpty_eq_false.mpr hne
    simp only [emitSnapshot, hf, Bool.false_eq_true, if_false]
  · intro hvalid
    simp only [emitSnapshot, hvalid, List.isEmpty_nil, if_true]
    exact ⟨trivial, trivial⟩
  · intro hc
    simp only [validateSnapshot, if_pos hc]
    exact List.mem_append.mpr (Or.inl (List.mem_append.mpr (Or.inl (by simp))))
  · intro ht
    simp only [validateSnapshot, if_pos ht]
    refine List.mem_append.mpr (Or.inl (List.mem_append.mpr (Or.inr (by simp))))
  · intro slot a hsa hconf
    refine hmem slot a hsa _ ?_
    unfold validateAnswer
    exact List.mem_append.mpr (Or.inr (by rw [if_pos hconf]; simp))
  · intro slot a hsa hs0 hs1 hs2 hs3
    refine hmem slot a hsa _ ?_
    unfold validateAnswer
    refine List.mem_append.mpr (Or.inl ?_)
    rw [if_neg hs0, if_neg (by simp [hs1, hs2, hs3])]
    simp

/-- C6 witness: a snapshot missing both call id and timestamp and carrying a
bad confidence is rejected with all three violations enumerated and the
orchestrator unchanged; a valid snapshot is stored and broadcast. -/
theorem emit_snapshot_validation_witness :
    emitSnapshot { sessions := [], snapshots := [], eventListeners := [] } "call-1"
        { call_id := "", answers := [("chief_complaint",
            { value := "pain", confidence := 3/2, status := "filled",
              evidence_turn_ids := [] })],
          red_flags := [], completed := false, timestamp := "" } "t1" =
      ({ sessions := [], snapshots := [], eventListeners := [] },
       .error ("Invalid snapshot: " ++ String.intercalate ", "
          (validateSnapshot
            { call_id := "", answers := [("chief_complaint",
                { value := "pain", confidence := 3/2, status := "filled",
                  evidence_turn_ids := [] })],
              red_flags := [], completed := false, timestamp := "" }).2)) ∧
    "call_id is required" ∈
      (validateSnapshot
        { call_id := "", answers := [("chief_complaint",
            { value := "pain", confidence := 3/2, status := "filled",
              evidence_turn_ids := [] })],
          red_flags := [], completed := false, timestamp := "" }).2 ∧
    ("Answer for " ++ "chief_complaint" ++ " must have confidence between 0 and 1") ∈
      (validateSnapshot
        { call_id := "", answers := [("chief_complaint",
            { value := "pain", confidence := 3/2, status := "filled",
              evidence_turn_ids := [] })],
          red_flags := [], completed := false, timestamp := "" }).2 :=
  ⟨(emit_snapshot_validation { sessions := [], snapshots := [], eventListeners := [] }
      "call-1" _ "t1").1 (by decide),
   (emit_snapshot_validation { sessions := [], snapshots := [], eventListeners := [] }
      "call-1" _ "t1").2.2.1 rfl,
   (emit_snapshot_validation { sessions := [], snapshots := [], eventListeners := [] }
      "call-1" _ "t1").2.2.2.2.1 "chief_complaint"
      { value := "pain", confidence := 3/2, status := "filled", evidence_turn_ids := [] }
      (by simp) (by norm_num)⟩

/-- C1 counterexample: a structurally valid snapshot with `completed = true`
and no answers passes validation, so `emit_snapshot` accepts it and stores
it, although no required catalog slot is filled — the biconditional fails
after the operation. -/
theorem completed_invariant_cex :
    (validateSnapshot
        { call_id := "call-1", answers := [], red_flags := [],
          completed := true, timestamp := "t1" }).2 = [] ∧
    alistLookup
        (emitSnapshot (initializeSession catalog {} "call-1" "t0").1 "call-1"
          { call_id := "call-1", answers := [], red_flags := [],
            completed := true, timestamp := "t1" } "t1").1.snapshots "call-1" =
      some { call_id := "call-1", answers := [], red_flags := [],
             completed := true, timestamp := "t1" } ∧
    ¬ completionInvariant
        { call_id := "call-1", answers := [], red_flags := [],
          completed := true, timestamp := "t1" } :=
  ⟨rfl, by decide, by decide⟩

/-- C1 amended: the completed iff all-required-filled biconditional holds
after initializing a session, after every `apply_value`
(`updateSnapshot`/`updateSlot`), and is preserved by processing any
transcript turn; `emit_snapshot`, however, enforces only structural
validity, so it can store a snapshot violating the biconditional. -/
theorem completed_invariant_amended :
    (∀ callId now, completionInvariant (initializeState catalog callId now).snapshot) ∧
    (∀ (state : SlotEngineState) (slot value : String) (confidence : ℚ)
        (ev : List String) (now : String),
      completionInvariant
        (updateSnapshot catalog state slot value confidence ev now).snapshot) ∧
    (∀ (o : Orchestrator) (callId slot value : String) (confidence : ℚ)
        (ev : List String) (now : String) (o1 : Orchestrator)
        (evs : List OrchestratorEvent) (snap : IntakeSnapshot),
      updateSlot catalog o callId slot value confidence ev now = .ok (o1, evs, snap) →
      completionInvariant snap ∧ alistLookup o1.snapshots callId = some snap) ∧
    (∀ (o : Orchestrator) (turn : TranscriptTurn) (now : String)
        (state : SlotEngineState),
      alistLookup o.sessions turn.call_id = some state →
      completionInvariant state.snapshot →
      invariantAfter (processTranscript catalog o turn now) turn.call_id) := by
  refine ⟨?_, ?_, ?_, ?_⟩
  · intro callId now
    unfold completionInvariant
    constructor
    · intro h
      simp [initializeState] at h
    · intro h
      exfalso
      have h2 := h ⟨"q_full_name", "May I have your full name, please?",
        "full_name", "personal", true⟩ (by decide) rfl
      simp [answerFilled, alistLookup, initializeState] at h2
  · intro state slot value confidence ev now
    unfold completionInvariant
    exact checkCompletion_eq_true_iff catalog
      (updateSnapshot catalog state slot value confidence ev now)
  · intro o callId slot value confidence ev now o1 evs snap hok
    unfold updateSlot at hok
    cases hs : alistLookup o.sessions callId with
    | none =>
      rw [hs] at hok
      simp at hok
    | some state =>
      rw [hs] at hok
      simp only [List.isEmpty_nil, List.isEmpty_cons, Bool.true_eq_false, Bool.false_eq_true, eq_self_iff_true, if_true, if_false, List.headD_cons, Except.ok.injEq, Prod.mk.injEq] at hok
      obtain ⟨ho1, _, hsnap⟩ := hok
      subst ho1
      subst hsnap
      constructor
      · unfold completionInvariant
        exact checkCompletion_eq_true_iff catalog
          (updateSnapshot catalog state slot value confidence ev now)
      · simp only [storeSession]
        exact alistLookup_set_self _ _ _
  · intro o turn now state h hinv
    intro o1 evs act state1 hok hlook
    unfold processTranscript at hok
    rw [h] at hok
    by_cases hfin : turn.is_final = true
    · simp only [hfin, Bool.not_true, Bool.false_eq_true, if_false] at hok
      rcases hflags : checkRecentTurns (addTranscriptTurn state turn).turns 5 with _ | ⟨f, rest⟩
      · rw [hflags] at hok
        rcases hnq : getNextQuestion catalog (addTranscriptTurn state turn) with _ | q
        · rw [hnq] at hok
          simp only [List.isEmpty_nil, List.isEmpty_cons, Bool.true_eq_false, Bool.false_eq_true, eq_self_iff_true, if_true, if_false, List.headD_cons, Except.ok.injEq, Prod.mk.injEq] at hok
          obtain ⟨ho1, _, _⟩ := hok
          subst ho1
          simp only [storeSession, alistLookup_set_self] at hlook
          cases hlook
          unfold completionInvariant
          constructor
          · intro _
            exact (getNextQuestion_eq_none_iff catalog (addTranscriptTurn state turn)).mp hnq
          · intro _
            rfl
        · rw [hnq] at hok
          simp only [List.isEmpty_nil, List.isEmpty_cons, Bool.true_eq_false, Bool.false_eq_true, eq_self_iff_true, if_true, if_false, List.headD_cons, Except.ok.injEq, Prod.mk.injEq] at hok
          obtain ⟨ho1, _, _⟩ := hok
          subst ho1
          simp only [storeSession, alistLookup_set_self] at hlook
          cases hlook
          exact hinv
      · rw [hflags] at hok
        simp only [List.isEmpty_nil, List.isEmpty_cons, Bool.true_eq_false, Bool.false_eq_true, eq_self_iff_true, if_true, if_false, List.headD_cons, Except.ok.injEq, Prod.mk.injEq] at hok
        obtain ⟨ho1, _, _⟩ := hok
        subst ho1
        simp only [storeSession, alistLookup_set_self] at hlook
        cases hlook
        exact hinv
    · simp only [Bool.not_eq_true] at hfin
      simp only [hfin, Bool.not_false, if_true] at hok
      simp only [List.isEmpty_nil, List.isEmpty_cons, Bool.true_eq_false, Bool.false_eq_true, eq_self_iff_true, if_true, if_false, List.headD_cons, Except.ok.injEq, Prod.mk.injEq] at hok
      obtain ⟨ho1, _, _⟩ := hok
      subst ho1
      simp only [storeSession, alistLookup_set_self] at hlook
      cases hlook
      exact hinv

/-- C1 amended witness: the invariant holds for the session stored after a
fresh session processes a harmless final turn. -/
theorem completed_invariant_amended_witness :
    invariantAfter
        (processTranscript catalog (initializeSession catalog {} "call-1" "t0").1
          { turn_id := "turn-1", call_id := "call-1", speaker := "patient",
            text := "hello there", is_final := true } "t1") "call-1" :=
  completed_invariant_amended.2.2.2 (initializeSession catalog {} "call-1" "t0").1
    { turn_id := "turn-1", call_id := "call-1", speaker := "patient",
      text := "hello there", is_final := true } "t1"
    (initializeState catalog "call-1" "t0") (by decide) (by decide)

/-- C2: on a final turn, when the safety screen over the recent window
returns flags with at least one new reason, `processTranscript` appends the
new reasons (deduplicated by exact reason string) to `snapshot.red_flags`,
broadcasts `red_flag_detected`, and returns `request_handoff` carrying the
first flag's reason and priority — the flag of the first-declared matching
rule — as the whole result, before any question progression (answers and
`completed` are untouched).  In particular the final patient turn
"I have severe chest pain and I have shortness of breath" yields the
`urgent` cardiac flag and a `request_handoff` return. -/
theorem safety_flags_precede_questions :
    (∀ (o : Orchestrator) (turn : TranscriptTurn) (now : String)
        (state : SlotEngineState) (flag : RedFlag) (rest : List RedFlag),
      alistLookup o.sessions turn.call_id = some state →
      turn.is_final = true →
      checkRecentTurns (state.turns ++ [turn]) 5 = flag :: rest →
      (flag :: rest).filter
          (fun f => !(state.snapshot.red_flags.contains f.reason)) ≠ [] →
      processTranscript catalog o turn now =
        .ok (storeSession o turn.call_id
              { addTranscriptTurn state turn with
                  snapshot :=
                    { state.snapshot with
                        red_flags := state.snapshot.red_flags ++
                          ((flag :: rest).map (fun f => f.reason)).filter
                            (fun r => !(state.snapshot.red_flags.contains r)) } },
             [{ type := "final", call_id := turn.call_id, timestamp := now,
                data := .turnData turn },
              { type := "transcript_received", call_id := turn.call_id,
                timestamp := now, data := .turnData turn },
              { type := "red_flag_detected", call_id := turn.call_id,
                timestamp := now, data := .flagsData (flag :: rest) }],
             .requestHandoff turn.call_id flag.reason flag.priority) ∧
      (∃ r, safetyRules.find?
            (fun rule =>
              !(checkRule (patientText (lastN 5 (state.turns ++ [turn]))) rule).isEmpty) =
          some r ∧
        flag.reason = r.reason ∧ flag.priority = r.priority)) ∧
    actionOf
        (processTranscript catalog (initializeSession catalog {} "call-1" "t0").1
          { turn_id := "turn-1", call_id := "call-1", speaker := "patient",
            text := "I have severe chest pain and I have shortness of breath",
            is_final := true } "t1") =
      some (.requestHandoff "call-1"
        "Potential cardiac emergency: chest pain with respiratory distress"
        "urgent") := by
  constructor
  · intro o turn now state flag rest h hfin hflags _hnew
    have hflags1 : checkRecentTurns (addTranscriptTurn state turn).turns 5 = flag :: rest :=
      hflags
    constructor
    · have hnodup : ((flag :: rest).map (fun f => f.reason)).Nodup := by
        rw [← hflags]
        exact detectRedFlags_reasons_nodup
          ((state.turns ++ [turn]).drop ((state.turns ++ [turn]).length - 5))
      unfold processTranscript
      rw [h]
      simp only [hfin, Bool.not_true, Bool.false_eq_true, if_false, eq_self_iff_true,
        if_true]
      rw [hflags1]
      simp only [List.isEmpty_cons, eq_self_iff_true, if_true, List.headD_cons]
      rw [foldl_dedup_append (flag :: rest)
        (addTranscriptTurn state turn).snapshot.red_flags hnodup]
      rfl
    · have hflags2 : safetyRules.filterMap (fun rule =>
          let hits := checkRule (patientText (lastN 5 (state.turns ++ [turn]))) rule
          if hits.isEmpty = true then none
          else some { reason := rule.reason, priority := rule.priority,
                      evidence := hits }) = flag :: rest := hflags
      obtain ⟨r, hr1, hr2⟩ := list_filterMap_head _ safetyRules flag rest hflags2
      have hrflag : flag =
          RedFlag.mk r.reason r.priority
            (checkRule (patientText (lastN 5 (state.turns ++ [turn]))) r) := by
        by_cases he : (checkRule (patientText (lastN 5 (state.turns ++ [turn]))) r).isEmpty = true
        · simp only [he, if_true] at hr2
          exact absurd hr2 (by simp)
        · simp only [he, if_false, Bool.false_eq_true] at hr2
          exact (Option.some.inj hr2).symm
      refine ⟨r, ?_, by rw [hrflag], by rw [hrflag]⟩
      rw [← hr1]
      apply list_find?_congr
      intro a _
      by_cases he : (checkRule (patientText (lastN 5 (state.turns ++ [turn]))) a).isEmpty = true
      · simp [he]
      · have hfe : (checkRule (patientText (lastN 5 (state.turns ++ [turn]))) a).isEmpty = false := by
          simpa using he
        simp [he, hfe]
  · decide

/-- C2 witness: the general part instantiated at the concrete chest-pain
turn on a fresh session. -/
theorem safety_flags_precede_questions_witness :
    (∃ r, safetyRules.find?
          (fun rule =>
            !(checkRule
                (patientText (lastN 5
                  ([] ++ [{ turn_id := "turn-1", call_id := "call-1",
                            speaker := "patient",
                            text := "I have severe chest pain and I have shortness of breath",
                            is_final := true }]))) rule).isEmpty) =
        some r ∧
      ("Potential cardiac emergency: chest pain with respiratory distress" : String) = r.reason ∧
      ("urgent" : String) = r.priority) :=
  ((safety_flags_precede_questions.1 (initializeSession catalog {} "call-1" "t0").1
      { turn_id := "turn-1", call_id := "call-1", speaker := "patient",
        text := "I have severe chest pain and I have shortness of breath",
        is_final := true } "t1"
      (initializeState catalog "call-1" "t0")
      { reason := "Potential cardiac emergency: chest pain with respiratory distress",
        priority := "urgent",
        evidence := ["chest pain + shortness of breath"] } []
      (by decide) rfl (by decide) (by decide)).2)

/-- The ids of a group found in the registry form a sublist of all
registered ids. -/
theorem lookup_sublist_registeredIds (m : List (String × List Listener))
    (c : String) (ls : List Listener) (h : alistLookup m c = some ls) :
    (ls.map (fun l => l.id)).Sublist (registeredIds m) := by
  induction m with
  | nil => simp [alistLookup] at h
  | cons hd tl ih =>
    obtain ⟨k, vs⟩ := hd
    simp only [alistLookup] at h
    simp only [registeredIds, List.flatMap_cons]
    by_cases hk : k = c
    · rw [if_pos hk] at h
      cases h
      exact List.sublist_append_left _ _
    · rw [if_neg hk] at h
      exact (ih h).trans (List.sublist_append_right _ _)

/-- Groups found under two different keys have disjoint listener ids when
all registered ids are pairwise distinct. -/
theorem lookup_disjoint_ids (m : List (String × List Listener)) (c c' : String)
    (hne : c ≠ c') (hids : (registeredIds m).Nodup)
    (ls ls' : List Listener) (h1 : alistLookup m c = some ls)
    (h2 : alistLookup m c' = some ls') :
    ∀ x ∈ ls, ∀ y ∈ ls', x.id ≠ y.id := by
  induction m with
  | nil => simp [alistLookup] at h1
  | cons hd tl ih =>
    obtain ⟨k, vs⟩ := hd
    simp only [alistLookup] at h1 h2
    simp only [registeredIds, List.flatMap_cons, List.nodup_append] at hids
    obtain ⟨_, htl, hdisj⟩ := hids
    by_cases hk1 : k = c
    · rw [if_pos hk1] at h1
      cases h1
      rw [if_neg (fun hk2 => hne (hk1.symm.trans hk2))] at h2
      intro x hx y hy he
      have hyid : y.id ∈ registeredIds tl :=
        (lookup_sublist_registeredIds tl c' ls' h2).subset
          (List.mem_map_of_mem _ hy)
      exact hdisj (List.mem_map_of_mem _ hx) (he ▸ hyid)
    · rw [if_neg hk1] at h1
      by_cases hk2 : k = c'
      · rw [if_pos hk2] at h2
        cases h2
        intro x hx y hy he
        have hxid : x.id ∈ registeredIds tl :=
          (lookup_sublist_registeredIds tl c ls h1).subset
            (List.mem_map_of_mem _ hx)
        exact hdisj (List.mem_map_of_mem _ hy) (he ▸ hxid)
      · rw [if_neg hk2] at h2
        exact ih htl h1 h2

/-- With pairwise distinct ids, removing the first occurrence of a present
listener is filtering out its id. -/
theorem removeFirst_eq_filter (ls : List Listener) (l : Listener)
    (hnd : (ls.map (fun x => x.id)).Nodup) (hmem : l ∈ ls) :
    removeFirst ls l = ls.filter (fun x => x.id ≠ l.id) := by
  induction ls with
  | nil => cases hmem
  | cons hd tl ih =>
    simp only [List.map_cons, List.nodup_cons] at hnd
    obtain ⟨hni, hnd⟩ := hnd
    by_cases he : hd = l
    · subst he
      have hL : removeFirst (hd :: tl) hd = tl := by
        simp [removeFirst]
      have hR : (hd :: tl).filter (fun x => x.id ≠ hd.id) = tl := by
        rw [List.filter_cons, if_neg (by simp)]
        apply List.filter_eq_self.mpr
        intro x hx
        have hxne : x.id ≠ hd.id := fun hh => hni (hh ▸ List.mem_map_of_mem _ hx)
        simpa using hxne
      rw [hL, hR]
    · have hmem2 : l ∈ tl := by
        rcases List.mem_cons.mp hmem with h | h
        · exact absurd h.symm he
        · exact h
      have hhd : hd.id ≠ l.id :=
        fun hh => hni (hh ▸ List.mem_map_of_mem _ hmem2)
      have hL : removeFirst (hd :: tl) l = hd :: removeFirst tl l := by
        simp [removeFirst, he]
      rw [hL, List.filter_cons, if_pos (by simpa using hhd), ih hnd hmem2]

/-- C7 counterexample: a single listener registered only under the wildcard
id receives an event whose call id is `*` twice — the per-call pass and the
wildcard pass iterate the same array. -/
theorem listener_wildcard_double_cex :
    emitEvent [("*", [{ id := 0, throws := false }])]
        { type := "final", call_id := "*", timestamp := "t", data := .empty } =
      [(0, false), (0, false)] := by
  decide

/-- C7 amended: delivery is synchronous and exactly the per-call group
followed by the wildcard group, in registration order; every registered
recipient is invoked regardless of any listener throwing (a throwing
listener is only recorded as caught, never propagated); for events whose
call id is not the wildcard `*`, with pairwise distinct listener identities
each listener fires at most once; and removing one listener removes exactly
that listener's deliveries from subsequent events.  (For an event whose
call id is `*` itself, the wildcard group fires twice.) -/
theorem event_delivery_amended :
    (∀ (m : List (String × List Listener)) (e : OrchestratorEvent),
      emitEvent m e =
        (((alistLookup m e.call_id).getD []).map (fun l => (l.id, l.throws))) ++
        (((alistLookup m "*").getD []).map (fun l => (l.id, l.throws)))) ∧
    (∀ (m : List (String × List Listener)) (e : OrchestratorEvent) (l : Listener),
      l ∈ eventRecipients m e.call_id → (l.id, l.throws) ∈ emitEvent m e) ∧
    (∀ (m : List (String × List Listener)) (e : OrchestratorEvent),
      (registeredIds m).Nodup → e.call_id ≠ "*" →
      ((emitEvent m e).map Prod.fst).Nodup) ∧
    (∀ (m : List (String × List Listener)) (e : OrchestratorEvent) (c : String)
        (l : Listener),
      (registeredIds m).Nodup → e.call_id ≠ "*" →
      l ∈ (alistLookup m c).getD [] →
      emitEvent (removeEventListener m c l) e =
        (emitEvent m e).filter (fun p => p.1 ≠ l.id)) := by
  have groupIds : ∀ (m : List (String × List Listener)) (c : String),
      (registeredIds m).Nodup → (((alistLookup m c).getD []).map (fun l => l.id)).Nodup := by
    intro m c hids
    cases hc : alistLookup m c with
    | none => simp
    | some ls =>
      simpa using (lookup_sublist_registeredIds m c ls hc).nodup hids
  have groupsDisjoint : ∀ (m : List (String × List Listener)) (c c' : String),
      c ≠ c' → (registeredIds m).Nodup →
      ∀ x ∈ (alistLookup m c).getD [], ∀ y ∈ (alistLookup m c').getD [],
        x.id ≠ y.id := by
    intro m c c' hne hids x hx y hy
    cases hc : alistLookup m c with
    | none => rw [hc] at hx; cases hx
    | some ls =>
      cases hc2 : alistLookup m c' with
      | none => rw [hc2] at hy; cases hy
      | some ls2 =>
        rw [hc] at hx
        rw [hc2] at hy
        exact lookup_disjoint_ids m c c' hne hids ls ls2 hc hc2 x hx y hy
  refine ⟨?_, ?_, ?_, ?_⟩
  · intro m e
    simp [emitEvent, eventRecipients]
  · intro m e l hl
    exact List.mem_map_of_mem _ hl
  · intro m e hids hne
    simp only [emitEvent, eventRecipients, List.map_append, List.map_map]
    rw [List.nodup_append]
    refine ⟨?_, ?_, ?_⟩
    · simpa [Function.comp] using groupIds m e.call_id hids
    · simpa [Function.comp] using groupIds m "*" hids
    · intro a ha hb
      simp only [Function.comp, List.mem_map] at ha hb
      obtain ⟨x, hx, hxa⟩ := ha
      obtain ⟨y, hy, hya⟩ := hb
      exact groupsDisjoint m e.call_id "*" hne hids x hx y hy (hxa.trans hya.symm)
  · intro m e c l hids hne hmem
    cases hcl : alistLookup m c with
    | none =>
      rw [hcl] at hmem
      cases hmem
    | some ls =>
      have hmemls : l ∈ ls := by
        rw [hcl] at hmem
        exact hmem
      have hlsnodup : (ls.map (fun x => x.id)).Nodup :=
        (lookup_sublist_registeredIds m c ls hcl).nodup hids
      have hrf := removeFirst_eq_filter ls l hlsnodup hmemls
      have hlookup2 : ∀ k : String,
          alistLookup (removeEventListener m c l) k =
            if k = c then some (ls.filter (fun x => x.id ≠ l.id))
            else alistLookup m k := by
        intro k
        unfold removeEventListener
        rw [hcl]
        by_cases hk : k = c
        · rw [if_pos hk, hk, alistLookup_set_self, hrf]
        · rw [if_neg hk, alistLookup_set_ne _ _ _ _ hk]
      have hfilterGroup : ∀ k : String, k ≠ c →
          ((alistLookup m k).getD []).filter (fun x => x.id ≠ l.id) =
            (alistLookup m k).getD [] := by
        intro k hk
        apply List.filter_eq_self.mpr
        intro x hx
        have := groupsDisjoint m k c hk hids x hx l hmem
        simpa using this
      have hc1 : ((alistLookup (removeEventListener m c l) e.call_id).getD []) =
          ((alistLookup m e.call_id).getD []).filter (fun x => x.id ≠ l.id) := by
        rw [hlookup2 e.call_id]
        by_cases hk : e.call_id = c
        · rw [if_pos hk, hk, hcl]
          rfl
        · rw [if_neg hk, hfilterGroup e.call_id hk]
      have hc2 : ((alistLookup (removeEventListener m c l) "*").getD []) =
          ((alistLookup m "*").getD []).filter (fun x => x.id ≠ l.id) := by
        rw [hlookup2 "*"]
        by_cases hk : "*" = c
        · rw [if_pos hk, hk, hcl]
          rfl
        · rw [if_neg hk, hfilterGroup "*" hk]
      simp only [emitEvent, eventRecipients, List.filter_append, List.filter_map]
      rw [hc1, hc2]
      rfl

/-- C7 amended witness: concrete registry with one per-call and one wildcard
listener — ordered delivery, at-most-once, and removal. -/
theorem event_delivery_amended_witness :
    ((emitEvent [("call-1", [{ id := 0, throws := true }]),
                 ("*", [{ id := 1, throws := false }])]
        { type := "final", call_id := "call-1", timestamp := "t",
          data := .empty }).map Prod.fst).Nodup ∧
    emitEvent
        (removeEventListener
          [("call-1", [{ id := 0, throws := true }]),
           ("*", [{ id := 1, throws := false }])]
          "call-1" { id := 0, throws := true })
        { type := "final", call_id := "call-1", timestamp := "t",
          data := .empty } =
      (emitEvent [("call-1", [{ id := 0, throws := true }]),
                  ("*", [{ id := 1, throws := false }])]
        { type := "final", call_id := "call-1", timestamp := "t",
          data := .empty }).filter (fun p => p.1 ≠ 0) :=
  ⟨event_delivery_amended.2.2.1
      [("call-1", [{ id := 0, throws := true }]),
       ("*", [{ id := 1, throws := false }])]
      { type := "final", call_id := "call-1", timestamp := "t", data := .empty }
      (by decide) (by decide),
   event_delivery_amended.2.2.2
      [("call-1", [{ id := 0, throws := true }]),
       ("*", [{ id := 1, throws := false }])]
      { type := "final", call_id := "call-1", timestamp := "t", data := .empty }
      "call-1" { id := 0, throws := true }
      (by decide) (by decide) (by decide)⟩

end VoiceAgent
